import Mathlib

/-!
Verification of the Trimble Connect integration app (`app.py`).

The file embeds the enumerator `Controller.list_project_files` (and its nested
`list_folder`), the UI option builders `get_trimble_projects` /
`get_project_files`, and the viewer-document emitter
`build_trimble_viewer_html`, and proves the spec's testable properties about
them.

Modelling conventions:
- JSON objects returned by the remote API become plain structures; a field the
  code reads with `item.get(k)` is an `Option`.
- Python string operations are embedded on `List Char` via `String.data`:
  `s.lstrip("/")` drops every leading `'/'`, `s.replace(a, b)` replaces
  non-overlapping occurrences left to right.
- Python truthiness on strings (`x or y`, `if not x`) treats `None` and the
  empty string as falsy; `pyStrOr` / `pyOrOpt` embed that.
- An HTTP request that raises becomes an `Except.error msg`; the remote
  folder tree is a mutual inductive where each listed item carries the
  (possibly failing) listing that a folder request for its id would return.
-/

deriving instance DecidableEq for Except

/-- Python `s.lstrip("/")`: remove every leading slash. -/
def lstripSlash (s : String) : String :=
  ⟨s.data.dropWhile (fun c => c = '/')⟩

/-- Python `a or b` where `a` is an optional string and `b` a string:
`None` and `""` are falsy. -/
def pyStrOr (a : Option String) (b : String) : String :=
  match a with
  | none => b
  | some s => if s = "" then b else s

/-- Python `a or b` on two optional strings (`None` and `""` falsy). -/
def pyOrOpt (a b : Option String) : Option String :=
  match a with
  | none => b
  | some s => if s = "" then b else some s

/-- One JSON object in a folder-listing response (`item` in the source).
Every field the code reads is optional. -/
structure ItemFields where
  id : Option String
  name : Option String
  type : Option String
  entityType : Option String
  size : Option Nat
  modifiedAt : Option String
  modifiedOn : Option String
deriving DecidableEq

/-- Python `s.upper()`, modelled per character with `Char.toUpper` (ASCII
case mapping, which covers every tag value the API is documented to use). -/
def strUpper (s : String) : String :=
  ⟨s.data.map Char.toUpper⟩

/-- `(item.get("type") or item.get("entityType") or "").upper()` from the
source (`app.py` line 276). -/
def typeTag (f : ItemFields) : String :=
  strUpper (pyStrOr f.type (pyStrOr f.entityType ""))

/-- One dict appended by `list_folder` in `Controller.list_project_files`
(`app.py` lines 285-294). -/
structure FileRecord where
  id : Option String
  name : String
  path : String
  size : Option Nat
  modifiedAt : Option String
  raw : ItemFields
deriving DecidableEq

mutual
/-- A listed item together with the listing the folder endpoint would return
for its id (consulted only when the item is classified as a folder). -/
inductive Item : Type where
  | mk (fields : ItemFields) (sub : Listing)

/-- Result of `GET /folders/{id}/items`: either the HTTP call raises with a
message, or it returns a JSON array of items. -/
inductive Listing : Type where
  | err (msg : String)
  | ok (items : ItemList)

/-- A JSON array of items. -/
inductive ItemList : Type where
  | nil
  | cons (head : Item) (tail : ItemList)
end

mutual
/-- `list_folder(folder_id, current_path)` from `Controller.list_project_files`
(`app.py` lines 261-296): list the folder, walk the items. -/
def listFolder : Listing → String → Except String (List FileRecord)
  | Listing.err msg, _ => Except.error msg
  | Listing.ok items, currentPath => listItemsGo items currentPath
termination_by structural l _ => l

/-- The `for item in items` loop of `list_folder`: results are concatenated in
listing order; a raise anywhere discards everything. -/
def listItemsGo : ItemList → String → Except String (List FileRecord)
  | ItemList.nil, _ => Except.ok []
  | ItemList.cons i rest, currentPath =>
    match listItem i currentPath with
    | Except.error e => Except.error e
    | Except.ok rs =>
      match listItemsGo rest currentPath with
      | Except.error e => Except.error e
      | Except.ok rest2 => Except.ok (rs ++ rest2)
termination_by structural l _ => l

/-- One iteration of the loop body of `list_folder` (`app.py` lines 272-294). -/
def listItem : Item → String → Except String (List FileRecord)
  | Item.mk f sub, currentPath =>
    let name := f.name.getD ""
    let itemPath := lstripSlash (currentPath ++ "/" ++ name)
    if typeTag f = "FOLDER" then
      listFolder sub itemPath
    else
      Except.ok [{ id := f.id, name := name, path := itemPath, size := f.size,
                   modifiedAt := pyOrOpt f.modifiedAt f.modifiedOn, raw := f }]
termination_by structural i _ => i
end

/-- The remote state `list_project_files(project_id, token)` interacts with:
the project-metadata request (which may raise; on success it yields the
optional `rootId`) and the listing tree rooted at that id. -/
structure ProjectRemote where
  projectFetch : Except String (Option String)
  rootListing : Listing

/-- `Controller.list_project_files` (`app.py` lines 230-299): resolve the root
folder id, fail if it is falsy, otherwise recurse from the root with path "". -/
def list_project_files (r : ProjectRemote) : Except String (List FileRecord) :=
  match r.projectFetch with
  | Except.error e => Except.error e
  | Except.ok rootId =>
    match rootId with
    | none => Except.error "Could not find root folder ID for this project."
    | some rid =>
      if rid = "" then Except.error "Could not find root folder ID for this project."
      else listFolder r.rootListing ""

/-- `vkt.OptionListElement(value=..., label=...)`. The UI file picker passes
`file["id"]`, which may be Python `None`, so `value` is optional. -/
structure OptionListElement where
  value : Option String
  label : String
deriving DecidableEq

/-- One entry of the `GET /projects` response, as read by
`get_trimble_projects` (`project["id"]`, `project["name"]`). -/
structure ProjectInfo where
  id : String
  name : String
deriving DecidableEq

/-- `get_trimble_projects` (`app.py` lines 110-134). The token retrieval, the
HTTP request, `raise_for_status` and the JSON decode are collapsed into one
`Except`: `Except.error e` is any exception with message `e` raised inside the
`try` block. -/
def get_trimble_projects (fetch : Except String (List ProjectInfo)) :
    List OptionListElement :=
  match fetch with
  | Except.error e => [{ value := some "error", label := "Error loading projects: " ++ e }]
  | Except.ok projects =>
    let options := projects.map (fun p => { value := some p.id, label := p.name : OptionListElement })
    if options.isEmpty then [{ value := some "", label := "No projects found" }]
    else options

/-- The nested `list_folder` of `get_project_files` (`app.py` lines 161-186)
differs from the one in `Controller.list_project_files` only in the leaf dict
it appends (`id`/`name`/`path` instead of the six-field dict); ids, paths,
emission order and error behaviour coincide, so the traversal is shared and
the lighter option entries are projected from the full records. -/
def get_project_files (project : String) (r : ProjectRemote) :
    List OptionListElement :=
  if project = "" then
    [{ value := some "Select a Project First", label := "Select a Project First" }]
  else
    match r.projectFetch with
    | Except.error e => [{ value := some "error", label := "Error loading files: " ++ e }]
    | Except.ok rootId =>
      match rootId with
      | none => [{ value := some "", label := "Could not find root folder" }]
      | some rid =>
        if rid = "" then [{ value := some "", label := "Could not find root folder" }]
        else
          match listFolder r.rootListing "" with
          | Except.error e => [{ value := some "error", label := "Error loading files: " ++ e }]
          | Except.ok fs =>
            let options := fs.map (fun f => { value := f.id, label := f.path : OptionListElement })
            if options.isEmpty then [{ value := some "", label := "No files found in project" }]
            else options

/-! Spec-side definitions. These follow the spec's words, to be compared with
the source-derived traversal above: the spec describes `path` as the `/`-join
of the ancestor names and the item's own name with the leading slash stripped,
and describes the output as the flat list of leaves in depth-first listing
order. -/

/-- The `/`-join of a list of names, as the spec words it. -/
def slashJoin : List String → String
  | [] => ""
  | [s] => s
  | s :: rest => s ++ "/" ++ slashJoin rest

/-- Display path of a node whose root-to-leaf name chain is `ancs`:
join with `/`, then strip any leading slash. -/
def pathOf (ancs : List String) : String :=
  lstripSlash (slashJoin ancs)

/-- Effective name of an item: `item.get("name", "")`. -/
def itemName (f : ItemFields) : String :=
  f.name.getD ""

mutual
/-- First exception message the depth-first walk would hit, if any. -/
def firstErrFolder : Listing → Option String
  | Listing.err m => some m
  | Listing.ok items => firstErrItems items
termination_by structural l => l

def firstErrItems : ItemList → Option String
  | ItemList.nil => none
  | ItemList.cons i rest =>
    match firstErrItem i with
    | some e => some e
    | none => firstErrItems rest
termination_by structural l => l

def firstErrItem : Item → Option String
  | Item.mk f sub => if typeTag f = "FOLDER" then firstErrFolder sub else none
termination_by structural i => i
end

mutual
/-- The leaves below a listing, each paired with its full root-to-leaf list of
ancestor folder names, in depth-first listing order. -/
def leavesFolder : Listing → List String → List (List String × ItemFields)
  | Listing.err _, _ => []
  | Listing.ok items, ancs => leavesItems items ancs
termination_by structural l => l

def leavesItems : ItemList → List String → List (List String × ItemFields)
  | ItemList.nil, _ => []
  | ItemList.cons i rest, ancs => leavesItem i ancs ++ leavesItems rest ancs
termination_by structural l => l

def leavesItem : Item → List String → List (List String × ItemFields)
  | Item.mk f sub, ancs =>
    if typeTag f = "FOLDER" then leavesFolder sub (ancs ++ [itemName f])
    else [(ancs, f)]
termination_by structural i => i
end

mutual
/-- Number of leaf (non-folder) items in the whole tree below a listing. -/
def leafCountFolder : Listing → Nat
  | Listing.err _ => 0
  | Listing.ok items => leafCountItems items
termination_by structural l => l

def leafCountItems : ItemList → Nat
  | ItemList.nil => 0
  | ItemList.cons i rest => leafCountItem i + leafCountItems rest
termination_by structural l => l

def leafCountItem : Item → Nat
  | Item.mk f sub => if typeTag f = "FOLDER" then leafCountFolder sub else 1
termination_by structural i => i
end

/-- The FileRecord the spec predicts for a leaf with ancestor chain `ancs`. -/
def recordOf (pr : List String × ItemFields) : FileRecord :=
  { id := pr.2.id
    name := itemName pr.2
    path := pathOf (pr.1 ++ [itemName pr.2])
    size := pr.2.size
    modifiedAt := pyOrOpt pr.2.modifiedAt pr.2.modifiedOn
    raw := pr.2 }

/-- The result the spec predicts for a depth-first walk of `l` below the
ancestor chain `ancs`. -/
def expectFolder (l : Listing) (ancs : List String) :
    Except String (List FileRecord) :=
  match firstErrFolder l with
  | some e => Except.error e
  | none => Except.ok ((leavesFolder l ancs).map recordOf)

/-- Spec prediction for the item list of one folder. -/
def expectItems (items : ItemList) (ancs : List String) :
    Except String (List FileRecord) :=
  match firstErrItems items with
  | some e => Except.error e
  | none => Except.ok ((leavesItems items ancs).map recordOf)

/-- Spec prediction for a single listed item. -/
def expectItem (i : Item) (ancs : List String) :
    Except String (List FileRecord) :=
  match firstErrItem i with
  | some e => Except.error e
  | none => Except.ok ((leavesItem i ancs).map recordOf)

/-! String lemmas: iterated `lstrip("/")` during the walk computes the same
path as joining the whole name chain once and stripping at the end. -/

theorem strData_append (a b : String) : (a ++ b).data = a.data ++ b.data := rfl

theorem strEmpty_append (s : String) : "" ++ s = s := rfl

theorem strAppend_assoc (a b c : String) : a ++ b ++ c = a ++ (b ++ c) :=
  congrArg String.mk (List.append_assoc a.data b.data c.data)

theorem dropWhile_idem_append (p : Char → Bool) (a b : List Char) :
    (a.dropWhile p ++ b).dropWhile p = (a ++ b).dropWhile p := by
  induction a with
  | nil => rfl
  | cons c a ih =>
    by_cases h : p c
    · simp [List.dropWhile_cons, h, ih]
    · simp [List.dropWhile_cons, h]

theorem lstripSlash_absorb (a b : String) :
    lstripSlash (lstripSlash a ++ b) = lstripSlash (a ++ b) := by
  simp only [lstripSlash, strData_append]
  exact congrArg String.mk (dropWhile_idem_append _ a.data b.data)

theorem lstripSlash_slash_cons (s : String) :
    lstripSlash ("/" ++ s) = lstripSlash s := by
  simp only [lstripSlash, strData_append]
  exact congrArg String.mk (by simp [List.dropWhile_cons])

theorem lstripSlash_empty : lstripSlash "" = "" := rfl

theorem pathOf_nil : pathOf [] = "" := rfl

theorem slashJoin_append_last (x : String) :
    ∀ (l : List String), l ≠ [] → slashJoin (l ++ [x]) = slashJoin l ++ "/" ++ x
  | [], h => absurd rfl h
  | [a], _ => by simp [slashJoin]
  | a :: b :: l2, _ => by
    have ih := slashJoin_append_last x (b :: l2) (by simp)
    show a ++ "/" ++ slashJoin ((b :: l2) ++ [x])
        = a ++ "/" ++ slashJoin (b :: l2) ++ "/" ++ x
    rw [ih]
    simp only [strAppend_assoc]

theorem pathOf_step (ancs : List String) (x : String) :
    lstripSlash (pathOf ancs ++ "/" ++ x) = pathOf (ancs ++ [x]) := by
  cases ancs with
  | nil =>
    show lstripSlash (lstripSlash "" ++ "/" ++ x) = pathOf [x]
    rw [lstripSlash_empty, strEmpty_append, lstripSlash_slash_cons]
    rfl
  | cons a l =>
    show lstripSlash (lstripSlash (slashJoin (a :: l)) ++ "/" ++ x) = _
    rw [strAppend_assoc, lstripSlash_absorb, ← strAppend_assoc,
      ← slashJoin_append_last x (a :: l) (by simp)]
    rfl

/-! The central correspondence: the traversal from the source equals the
spec-side prediction, for every tree and every ancestor chain. -/

mutual
theorem masterFolder : (l : Listing) → (ancs : List String) →
    listFolder l (pathOf ancs) = expectFolder l ancs
  | Listing.err m, _ => rfl
  | Listing.ok items, ancs => by
    rw [listFolder]
    rw [masterItems items ancs]
    rfl
termination_by structural l => l

theorem masterItems : (items : ItemList) → (ancs : List String) →
    listItemsGo items (pathOf ancs) = expectItems items ancs
  | ItemList.nil, _ => rfl
  | ItemList.cons i rest, ancs => by
    rw [listItemsGo]
    rw [masterItem i ancs, masterItems rest ancs]
    cases h1 : firstErrItem i with
    | some e => simp [expectItem, expectItems, firstErrItems, h1]
    | none =>
      cases h2 : firstErrItems rest with
      | some e =>
        simp [expectItem, expectItems, firstErrItems, leavesItems, h1, h2]
      | none =>
        simp [expectItem, expectItems, firstErrItems, leavesItems, h1, h2]
termination_by structural items => items

theorem masterItem : (i : Item) → (ancs : List String) →
    listItem i (pathOf ancs) = expectItem i ancs
  | Item.mk f sub, ancs => by
    simp only [listItem]
    rw [pathOf_step]
    by_cases h : typeTag f = "FOLDER"
    · simp only [h, if_true]
      rw [masterFolder sub (ancs ++ [f.name.getD ""])]
      simp [expectItem, expectFolder, firstErrItem, leavesItem, h, itemName]
    · simp only [h, if_false]
      simp [expectItem, firstErrItem, leavesItem, h, recordOf, itemName]
termination_by structural i => i
end

/-! Derived facts used by the individual claims. -/

theorem forall₂_map_left {α β : Type} (g : α → β) (R : β → α → Prop) :
    ∀ (l : List α), (∀ x ∈ l, R (g x) x) → List.Forall₂ R (l.map g) l
  | [], _ => List.Forall₂.nil
  | x :: xs, h =>
    List.Forall₂.cons (h x (by simp))
      (forall₂_map_left g R xs (fun y hy => h y (by simp [hy])))

mutual
theorem leavesLenFolder : (l : Listing) → (ancs : List String) →
    (leavesFolder l ancs).length = leafCountFolder l
  | Listing.err _, _ => rfl
  | Listing.ok items, ancs => leavesLenItems items ancs
termination_by structural l => l

theorem leavesLenItems : (items : ItemList) → (ancs : List String) →
    (leavesItems items ancs).length = leafCountItems items
  | ItemList.nil, _ => rfl
  | ItemList.cons i rest, ancs => by
    rw [leavesItems, leafCountItems, List.length_append,
      leavesLenItem i ancs, leavesLenItems rest ancs]
termination_by structural items => items

theorem leavesLenItem : (i : Item) → (ancs : List String) →
    (leavesItem i ancs).length = leafCountItem i
  | Item.mk f sub, ancs => by
    rw [leavesItem, leafCountItem]
    by_cases h : typeTag f = "FOLDER"
    · simp only [h, if_true]
      exact leavesLenFolder sub (ancs ++ [itemName f])
    · simp [h]
termination_by structural i => i
end

/-- A string made only of slashes (the empty string included). -/
def strAllSlash (s : String) : Bool :=
  s.data.all (fun c => c = '/')

theorem lstripSlash_eq_empty_iff (s : String) :
    lstripSlash s = "" ↔ strAllSlash s = true := by
  rw [String.ext_iff]
  show s.data.dropWhile (fun c => c = '/') = [] ↔ _
  rw [List.dropWhile_eq_nil_iff, strAllSlash, List.all_eq_true]

theorem slashJoin_allSlash : ∀ (l : List String),
    strAllSlash (slashJoin l) = l.all strAllSlash
  | [] => rfl
  | [s] => by simp [slashJoin]
  | s :: b :: l2 => by
    have ih := slashJoin_allSlash (b :: l2)
    show strAllSlash (s ++ "/" ++ slashJoin (b :: l2)) = _
    simp only [strAllSlash, strData_append, List.all_append] at ih ⊢
    rw [ih]
    simp [strAllSlash, Bool.and_assoc]

theorem pathOf_eq_empty_iff (l : List String) :
    pathOf l = "" ↔ l.all strAllSlash = true := by
  rw [pathOf, lstripSlash_eq_empty_iff, slashJoin_allSlash]

/-- When the enumerator succeeds, its project fetch gave a truthy root id and
the output is the root walk with empty initial path. -/
theorem enum_ok_core (r : ProjectRemote) (fs : List FileRecord)
    (h : list_project_files r = Except.ok fs) :
    listFolder r.rootListing "" = Except.ok fs := by
  unfold list_project_files at h
  cases hf : r.projectFetch with
  | error e => rw [hf] at h; simp at h
  | ok rootId =>
    rw [hf] at h
    cases rootId with
    | none => simp at h
    | some rid =>
      by_cases hr : rid = ""
      · simp [hr] at h
      · simp [hr] at h
        exact h

/-- Success of the root walk, rewritten by the master correspondence. -/
theorem listFolder_ok_iff (l : Listing) (fs : List FileRecord)
    (h : listFolder l "" = Except.ok fs) :
    firstErrFolder l = none ∧ fs = (leavesFolder l []).map recordOf := by
  have hm := masterFolder l []
  rw [pathOf_nil] at hm
  rw [hm] at h
  unfold expectFolder at h
  cases he : firstErrFolder l with
  | some e => rw [he] at h; exact absurd h (by simp)
  | none =>
    rw [he] at h
    exact ⟨rfl, by injection h with h2; exact h2.symm⟩

/-! Concrete trees used by witnesses and counterexamples. -/

/-- Item fields with the given name and type tag, and no optional extras. -/
def demoFields (nm : String) (ty : Option String) : ItemFields :=
  { id := some nm, name := some nm, type := ty, entityType := none,
    size := none, modifiedAt := none, modifiedOn := none }

/-- A file-like item (its sub-listing is never consulted). -/
def demoLeaf (nm : String) : Item :=
  Item.mk (demoFields nm (some "FILE")) (Listing.ok ItemList.nil)

/-- A folder item with the given children. -/
def demoFolder (nm : String) (items : ItemList) : Item :=
  Item.mk (demoFields nm (some "FOLDER")) (Listing.ok items)

/-- Root listing of the spec's end-to-end scenario: file `a.ifc`, then folder
`Sub` containing `b.ifc`. -/
def demoRoot : Listing :=
  Listing.ok (ItemList.cons (demoLeaf "a.ifc")
    (ItemList.cons (demoFolder "Sub" (ItemList.cons (demoLeaf "b.ifc") ItemList.nil))
      ItemList.nil))

/-- The same scenario with the root's listing order reversed. -/
def demoRootSwapped : Listing :=
  Listing.ok (ItemList.cons (demoFolder "Sub" (ItemList.cons (demoLeaf "b.ifc") ItemList.nil))
    (ItemList.cons (demoLeaf "a.ifc") ItemList.nil))

/-- Record the enumerator emits for `a.ifc` in the scenario. -/
def recA : FileRecord :=
  { id := some "a.ifc", name := "a.ifc", path := "a.ifc", size := none,
    modifiedAt := none, raw := demoFields "a.ifc" (some "FILE") }

/-- Record the enumerator emits for `b.ifc` in the scenario. -/
def recSubB : FileRecord :=
  { id := some "b.ifc", name := "b.ifc", path := "Sub/b.ifc", size := none,
    modifiedAt := none, raw := demoFields "b.ifc" (some "FILE") }

/-! Claim C1. -/

/-- C1: every record emitted by the enumerator's root walk has `path` equal to
the `/`-join of its ancestor folder names in root-to-leaf order followed by
its own name, with the leading slashes stripped, whatever the names are
(empty names included). `leavesFolder l []` pairs each emitted leaf with its
ancestor name chain. -/
theorem c1_path_is_join_of_ancestors (l : Listing) (fs : List FileRecord)
    (h : listFolder l "" = Except.ok fs) :
    List.Forall₂
      (fun r pr => r.path = lstripSlash (slashJoin (pr.1 ++ [itemName pr.2])))
      fs (leavesFolder l []) := by
  obtain ⟨-, hfs⟩ := listFolder_ok_iff l fs h
  subst hfs
  exact forall₂_map_left recordOf _ (leavesFolder l []) (fun pr _ => rfl)

/-- C1 witness: the scenario tree, evaluated. -/
theorem c1_witness :
    List.Forall₂
      (fun r pr => r.path = lstripSlash (slashJoin (pr.1 ++ [itemName pr.2])))
      [recA, recSubB] (leavesFolder demoRoot []) :=
  c1_path_is_join_of_ancestors demoRoot [recA, recSubB] (by decide)

/-! Claim C2 (corrected). -/

/-- Fields of a leaf whose name is the single character `/`. -/
def slashNameFields : ItemFields :=
  { id := some "x", name := some "/", type := none, entityType := none,
    size := none, modifiedAt := none, modifiedOn := none }

/-- A root listing holding only that slash-named leaf. -/
def slashRoot : Listing :=
  Listing.ok (ItemList.cons (Item.mk slashNameFields (Listing.ok ItemList.nil))
    ItemList.nil)

/-- C2 counterexample: a leaf named `"/"` at the root is emitted with an empty
`path` although its own name is not empty and it has no ancestors, refuting
"non-empty `path` unless the item's own name and all of its ancestor folder
names are empty". -/
theorem c2_counterexample :
    listFolder slashRoot "" = Except.ok
      [{ id := some "x", name := "/", path := "", size := none,
         modifiedAt := none, raw := slashNameFields }]
    ∧ leavesFolder slashRoot [] = [([], slashNameFields)]
    ∧ ("/" : String) ≠ "" := by decide

/-- C2 (amended): the enumerator returns exactly N records for N leaf items,
and a record's `path` is empty exactly when its own name and all of its
ancestor folder names consist only of `/` characters — in particular when they
are all empty. -/
theorem c2_count_and_empty_path (r : ProjectRemote) (fs : List FileRecord)
    (h : list_project_files r = Except.ok fs) :
    fs.length = leafCountFolder r.rootListing ∧
    List.Forall₂
      (fun re pr => re.path = "" ↔ (pr.1 ++ [itemName pr.2]).all strAllSlash = true)
      fs (leavesFolder r.rootListing []) := by
  obtain ⟨-, hfs⟩ := listFolder_ok_iff r.rootListing fs (enum_ok_core r fs h)
  subst hfs
  constructor
  · rw [List.length_map, leavesLenFolder]
  · exact forall₂_map_left recordOf _ (leavesFolder r.rootListing [])
      (fun pr _ => pathOf_eq_empty_iff (pr.1 ++ [itemName pr.2]))

/-- C2 witness: the scenario project has two leaves, two records, and both
paths are non-empty (their name chains are not slash-only). -/
theorem c2_witness :
    [recA, recSubB].length =
      leafCountFolder (ProjectRemote.mk (Except.ok (some "root")) demoRoot).rootListing ∧
    List.Forall₂
      (fun re pr => re.path = "" ↔ (pr.1 ++ [itemName pr.2]).all strAllSlash = true)
      [recA, recSubB]
      (leavesFolder (ProjectRemote.mk (Except.ok (some "root")) demoRoot).rootListing []) :=
  c2_count_and_empty_path (ProjectRemote.mk (Except.ok (some "root")) demoRoot)
    [recA, recSubB] (by decide)

/-! Claim C3 (corrected). -/

/-- Case-insensitive equality of strings, the spec's "compares
case-insensitively equal": equal after uppercasing both sides. -/
def caseInsensEq (a b : String) : Bool :=
  strUpper a == strUpper b

/-- The type tag exactly as the claim words it: the primary `type` field,
falling back to `entityType` only when `type` is absent. -/
def claimTypeTag (f : ItemFields) : String :=
  match f.type with
  | some t => t
  | none => f.entityType.getD ""

/-- Folder classification as the claim words it. -/
def claimIsFolder (f : ItemFields) : Bool :=
  caseInsensEq (claimTypeTag f) "FOLDER"

/-- Fields with a present-but-empty primary `type` and `entityType` FOLDER. -/
def emptyTypeFields : ItemFields :=
  { id := some "y", name := some "n", type := some "", entityType := some "FOLDER",
    size := none, modifiedAt := none, modifiedOn := none }

/-- C3 counterexample: with `type` present but empty and `entityType` equal to
`"FOLDER"`, the claim classifies the item as a leaf (empty tag, no fallback
because `type` is not absent), but the code classifies it as a folder and
recurses into it — here yielding `[]` instead of emitting one file record. -/
theorem c3_counterexample :
    claimIsFolder emptyTypeFields = false
    ∧ typeTag emptyTypeFields = "FOLDER"
    ∧ listItem (Item.mk emptyTypeFields (Listing.ok ItemList.nil)) "" = Except.ok [] := by
  decide

/-- C3 (amended): the fallback to `entityType` happens whenever `type` is
absent **or empty** (Python truthiness), and likewise an empty `entityType`
falls through to `""`; the item is a folder iff the resulting effective tag
compares case-insensitively equal to `"FOLDER"`, every other effective tag
(missing and empty included) making it a leaf emitted as a single file
record. -/
theorem c3_classification (f : ItemFields) (sub : Listing) (p : String) :
    (typeTag f = "FOLDER" ↔ caseInsensEq (pyStrOr f.type (pyStrOr f.entityType "")) "FOLDER" = true) ∧
    (caseInsensEq (pyStrOr f.type (pyStrOr f.entityType "")) "FOLDER" = false →
      listItem (Item.mk f sub) p = Except.ok
        [{ id := f.id, name := f.name.getD "",
           path := lstripSlash (p ++ "/" ++ f.name.getD ""), size := f.size,
           modifiedAt := pyOrOpt f.modifiedAt f.modifiedOn, raw := f }]) ∧
    (caseInsensEq (pyStrOr f.type (pyStrOr f.entityType "")) "FOLDER" = true →
      listItem (Item.mk f sub) p = listFolder sub (lstripSlash (p ++ "/" ++ f.name.getD ""))) := by
  have hiff : typeTag f = "FOLDER"
      ↔ caseInsensEq (pyStrOr f.type (pyStrOr f.entityType "")) "FOLDER" = true := by
    rw [caseInsensEq, typeTag, beq_iff_eq]
    exact Iff.rfl
  refine ⟨hiff, ?_, ?_⟩
  · intro hfalse
    have hne : ¬ typeTag f = "FOLDER" := by
      intro hfold
      rw [hiff.mp hfold] at hfalse
      cases hfalse
    simp [listItem, hne]
  · intro htrue
    have hfold : typeTag f = "FOLDER" := hiff.mpr htrue
    simp [listItem, hfold]

/-- C3 witness: a tag `"Folder"` (mixed case) is classified as a folder and
recursed into, with the child path accumulated. -/
theorem c3_witness :
    listItem (Item.mk (demoFields "Sub" (some "Folder")) (Listing.ok ItemList.nil)) ""
      = listFolder (Listing.ok ItemList.nil) (lstripSlash ("" ++ "/" ++ (some "Sub" : Option String).getD "")) :=
  (c3_classification (demoFields "Sub" (some "Folder")) (Listing.ok ItemList.nil) "").2.2
    (by decide)

/-! Claim C4. -/

/-- C4: if any folder-listing request fails partway through the tree, the
enumerator propagates that very exception and returns no records at all: the
result is the first error hit by the walk, whatever was already collected. -/
theorem c4_all_or_nothing (rid : String) (l : Listing) (e : String)
    (hrid : rid ≠ "") (he : firstErrFolder l = some e) :
    list_project_files { projectFetch := Except.ok (some rid), rootListing := l }
      = Except.error e := by
  have hm := masterFolder l []
  rw [pathOf_nil] at hm
  unfold list_project_files
  simp only [hrid, if_false, hm, expectFolder, he]

/-- A multi-folder tree whose second child's listing request raises after a
first leaf was already collected. -/
def midwayFailRoot : Listing :=
  Listing.ok (ItemList.cons (demoLeaf "a.ifc")
    (ItemList.cons (Item.mk (demoFields "Bad" (some "FOLDER")) (Listing.err "boom"))
      ItemList.nil))

/-- C4 witness: the first leaf is discarded; the caller sees only the error. -/
theorem c4_witness :
    list_project_files { projectFetch := Except.ok (some "root"), rootListing := midwayFailRoot }
      = Except.error "boom" :=
  c4_all_or_nothing "root" midwayFailRoot "boom" (by decide) (by decide)

/-! Claim C5. -/

/-- C5: when the project metadata yields no root id (absent or empty), the
enumerator fails at once with the root-folder error — the spec's
`IntegrationError("root folder not found")`, raised in the code as
`Exception("Could not find root folder ID for this project.")` — and the
result does not depend on the root listing at all, so no folder-listing
request is issued and nothing is retried. -/
theorem c5_rootFalsy (rootId : Option String) (l : Listing)
    (h : rootId = none ∨ rootId = some "") :
    list_project_files { projectFetch := Except.ok rootId, rootListing := l }
      = Except.error "Could not find root folder ID for this project." := by
  rcases h with h | h <;> subst h <;> simp [list_project_files]

/-- C5 witness: root id absent, over a listing that would itself fail — the
root-folder error wins because the listing is never requested. -/
theorem c5_witness :
    list_project_files { projectFetch := Except.ok none, rootListing := Listing.err "never sent" }
      = Except.error "Could not find root folder ID for this project." :=
  c5_rootFalsy none (Listing.err "never sent") (Or.inl rfl)

/-! Claim C6. -/

/-- C6: the output is the depth-first concatenation of the per-folder results
in listing order with no sorting — in general (the walk equals the spec-side
flattened prediction `expectFolder`), and on the spec's scenario: a root
listing `[a.ifc, Sub[b.ifc]]` yields exactly `[a.ifc, Sub/b.ifc]`, and the
swapped listing order yields the swapped output order. -/
theorem c6_depth_first_order :
    (∀ l : Listing, listFolder l "" = expectFolder l []) ∧
    listFolder demoRoot "" = Except.ok [recA, recSubB] ∧
    listFolder demoRootSwapped "" = Except.ok [recSubB, recA] := by
  refine ⟨fun l => ?_, by decide, by decide⟩
  have hm := masterFolder l []
  rwa [pathOf_nil] at hm

/-! Claim C8 (corrected). -/

/-- Fields whose `modifiedAt` is present but empty and whose `modifiedOn` is
absent. -/
def emptyTimestampFields : ItemFields :=
  { id := some "f1", name := some "m.ifc", type := none, entityType := none,
    size := some 7, modifiedAt := some "", modifiedOn := none }

/-- C8 counterexample: the source item's `modifiedAt` is present (the empty
string), yet the emitted record's `modifiedAt` is `none` — Python's `or`
skips a present-but-empty field, refuting "whichever of the source fields is
present". -/
theorem c8_counterexample :
    listFolder (Listing.ok (ItemList.cons
        (Item.mk emptyTimestampFields (Listing.ok ItemList.nil)) ItemList.nil)) ""
      = Except.ok
        [{ id := some "f1", name := "m.ifc", path := "m.ifc", size := some 7,
           modifiedAt := none, raw := emptyTimestampFields }]
    ∧ emptyTimestampFields.modifiedAt = some "" := by decide

/-- The amended timestamp rule (spec side): `modifiedOn`'s value when
`modifiedAt` is absent or empty, `modifiedAt`'s value otherwise. -/
def specTimestamp (a b : Option String) : Option String :=
  if a = none ∨ a = some "" then b else a

theorem specTimestamp_eq_pyOrOpt (a b : Option String) :
    specTimestamp a b = pyOrOpt a b := by
  cases a with
  | none => simp [specTimestamp, pyOrOpt]
  | some s =>
    by_cases hs : s = "" <;> simp [specTimestamp, pyOrOpt, hs]

/-- C8 (amended): every emitted record copies `id`, `size` and the whole
original item verbatim, and `modifiedAt` follows `specTimestamp`: the first of
the source's `modifiedAt` / `modifiedOn` that is present and non-empty (a
present-but-empty `modifiedAt` is skipped like an absent one). Records are
values assembled once during the walk, never mutated. -/
theorem c8_record_fields (r : ProjectRemote) (fs : List FileRecord)
    (h : list_project_files r = Except.ok fs) :
    List.Forall₂
      (fun re pr => re.id = pr.2.id ∧ re.size = pr.2.size ∧ re.raw = pr.2 ∧
        re.modifiedAt = specTimestamp pr.2.modifiedAt pr.2.modifiedOn)
      fs (leavesFolder r.rootListing []) := by
  obtain ⟨-, hfs⟩ := listFolder_ok_iff r.rootListing fs (enum_ok_core r fs h)
  subst hfs
  exact forall₂_map_left recordOf _ (leavesFolder r.rootListing [])
    (fun pr _ => ⟨rfl, rfl, rfl, (specTimestamp_eq_pyOrOpt _ _).symm⟩)

/-- A root listing with one leaf carrying a size and a `modifiedOn` value. -/
def timestampedRoot : Listing :=
  Listing.ok (ItemList.cons (Item.mk
    { id := some "f2", name := some "t.ifc", type := some "FILE", entityType := none,
      size := some 123, modifiedAt := none, modifiedOn := some "2025-12-16T12:34:56Z" }
    (Listing.ok ItemList.nil)) ItemList.nil)

/-- The record emitted for the leaf of `timestampedRoot`. -/
def recT : FileRecord :=
  { id := some "f2", name := "t.ifc", path := "t.ifc", size := some 123,
    modifiedAt := some "2025-12-16T12:34:56Z",
    raw := { id := some "f2", name := some "t.ifc", type := some "FILE",
             entityType := none, size := some 123, modifiedAt := none,
             modifiedOn := some "2025-12-16T12:34:56Z" } }

/-- C8 witness: concrete run with size and timestamp fields populated. -/
theorem c8_witness :
    List.Forall₂
      (fun re pr => re.id = pr.2.id ∧ re.size = pr.2.size ∧ re.raw = pr.2 ∧
        re.modifiedAt = specTimestamp pr.2.modifiedAt pr.2.modifiedOn)
      [recT]
      (leavesFolder (ProjectRemote.mk (Except.ok (some "root")) timestampedRoot).rootListing []) :=
  c8_record_fields (ProjectRemote.mk (Except.ok (some "root")) timestampedRoot) [recT] (by decide)

/-! Claim C9. -/

/-- C9: whatever exception is raised while a selection list is being
populated — fetching projects, fetching the project metadata, or walking the
folder tree — the option builders catch it and return exactly one sentinel
entry whose label carries the error message, instead of propagating. -/
theorem c9_sentinel_on_error (e project rid : String) (l : Listing)
    (hp : project ≠ "") (hrid : rid ≠ "") (he : firstErrFolder l = some e) :
    get_trimble_projects (Except.error e)
      = [{ value := some "error", label := "Error loading projects: " ++ e }] ∧
    get_project_files project { projectFetch := Except.error e, rootListing := l }
      = [{ value := some "error", label := "Error loading files: " ++ e }] ∧
    get_project_files project { projectFetch := Except.ok (some rid), rootListing := l }
      = [{ value := some "error", label := "Error loading files: " ++ e }] := by
  have hm := masterFolder l []
  rw [pathOf_nil] at hm
  refine ⟨rfl, ?_, ?_⟩
  · simp [get_project_files, hp]
  · simp [get_project_files, hp, hrid, hm, expectFolder, he]

/-- C9 witness: a concrete failure message surfaces as the single option
entry in both builders. -/
theorem c9_witness :
    get_trimble_projects (Except.error "401 Unauthorized")
      = [{ value := some "error", label := "Error loading projects: 401 Unauthorized" }] ∧
    get_project_files "p1" { projectFetch := Except.error "401 Unauthorized", rootListing := Listing.err "401 Unauthorized" }
      = [{ value := some "error", label := "Error loading files: 401 Unauthorized" }] ∧
    get_project_files "p1" { projectFetch := Except.ok (some "root"), rootListing := Listing.err "401 Unauthorized" }
      = [{ value := some "error", label := "Error loading files: 401 Unauthorized" }] :=
  c9_sentinel_on_error "401 Unauthorized" "p1" "root" (Listing.err "401 Unauthorized")
    (by decide) (by decide) (by decide)

/-! Claim C10. -/

/-- C10: with no project selected, `get_project_files` returns exactly the
one placeholder option, for every possible remote state — the result does not
depend on the token fetch, the metadata request or the listing tree, so none
of them is performed. -/
theorem c10_no_project_selected (r : ProjectRemote) :
    get_project_files "" r
      = [{ value := some "Select a Project First", label := "Select a Project First" }] := by
  simp [get_project_files]

/-! Claim C7: the viewer template and `build_trimble_viewer_html`. -/

/-- `VIEWER_HTML_TEMPLATE` (`app.py` lines 11-86), verbatim; `\x7b`/`\x7d`
encode the literal braces and `\x27` the apostrophe. -/
def VIEWER_HTML_TEMPLATE : String :=
"<!doctype html>
<html>
  <head>
    <meta charset=\"utf-8\" />
    <title>Trimble Connect Viewer</title>
    <style>
      html, body \x7b
        margin: 0;
        padding: 0;
        height: 100%;
        width: 100%;
        overflow: hidden;
      \x7d
      #tc-viewer \x7b
        border: 0;
        width: 100%;
        height: 100%;
      \x7d
    </style>
    <script src=\"https://components.connect.trimble.com/trimble-connect-workspace-api/index.js\"></script>
  </head>
  <body>
    <iframe
      id=\"tc-viewer\"
      src=\"about:blank\"
      allowfullscreen
    ></iframe>

    <script>
      const ACCESS_TOKEN = \"__ACCESS_TOKEN__\";
      const PROJECT_ID   = \"__PROJECT_ID__\";
      const MODEL_ID     = \"__MODEL_ID__\";
      const VERSION_ID   = \"__VERSION_ID__\";

      (async function () \x7b
        try \x7b
          const iframe = document.getElementById(\"tc-viewer\");

          // Get Trimble\x27s embedded app URL
          iframe.src = TrimbleConnectWorkspace.getConnectEmbedUrl();

          // Connect Workspace API to the iframe
          const api = await TrimbleConnectWorkspace.connect(
            iframe,
            function (event, data) \x7b
              console.log(\"TC event:\", event, data);
            \x7d,
            30000
          );

          // Pass the OAuth access token
          await api.embed.setTokens(\x7b
            accessToken: ACCESS_TOKEN
          \x7d);

          // Configure which project/model to open
          const config = \x7b
            projectId: PROJECT_ID,
            modelId: MODEL_ID
          \x7d;

          if (VERSION_ID) \x7b
            config.versionId = VERSION_ID;
          \x7d

          // Start 3D viewer
          await api.embed.init3DViewer(config);
        \x7d catch (e) \x7b
          console.error(\"Error initializing Trimble viewer:\", e);
          alert(\"Failed to initialize Trimble Connect viewer. Check console.\");
        \x7d
      \x7d)();
    </script>
  </body>
</html>
"

/-- `pat` occurs at the start of `s`. -/
def headMatch : List Char → List Char → Bool
  | [], _ => true
  | _ :: _, [] => false
  | p :: ps, c :: cs => p = c && headMatch ps cs

/-- Scanner behind `pyReplace`: at skip 0, a match at the current position
emits `rep` and skips the matched characters; otherwise the character is kept.
For non-empty `pat` (true of every marker used here) this is exactly Python
`s.replace(pat, rep)`, non-overlapping and left to right. -/
def replaceSkip : Nat → List Char → List Char → List Char → List Char
  | _, _, _, [] => []
  | 0, pat, rep, c :: cs =>
    if headMatch pat (c :: cs) then rep ++ replaceSkip (pat.length - 1) pat rep cs
    else c :: replaceSkip 0 pat rep cs
  | k + 1, pat, rep, _ :: cs => replaceSkip k pat rep cs

/-- Python `s.replace(pat, rep)` for non-empty `pat`. -/
def pyReplace (s pat rep : String) : String :=
  ⟨replaceSkip 0 pat.data rep.data s.data⟩

/-- Count of non-overlapping occurrences of `pat`, scanning left to right
(Python `s.count(pat)` for non-empty `pat`); 0 means `pat` is not a
substring. -/
def countSkip : Nat → List Char → List Char → Nat
  | _, _, [] => 0
  | 0, pat, c :: cs =>
    if headMatch pat (c :: cs) then 1 + countSkip (pat.length - 1) pat cs
    else countSkip 0 pat cs
  | k + 1, pat, _ :: cs => countSkip k pat cs

/-- Occurrence count at the string level. -/
def countSubstr (s pat : String) : Nat :=
  countSkip 0 pat.data s.data

/-- Index of the first occurrence of `pat` in `s` (length of `s` if none). -/
def idxOfSubAux (pat : List Char) : List Char → Nat
  | [] => 0
  | c :: cs => if headMatch pat (c :: cs) then 0 else 1 + idxOfSubAux pat cs

/-- First-occurrence index at the string level. -/
def idxOfSub (s pat : String) : Nat :=
  idxOfSubAux pat.data s.data

/-- `build_trimble_viewer_html` (`app.py` lines 89-107): four successive
literal replacements, the version marker replaced by `version_id or ""`. -/
def build_trimble_viewer_html (access_token project_id model_id : String)
    (version_id : Option String) : String :=
  let html := VIEWER_HTML_TEMPLATE
  let html := pyReplace html "__ACCESS_TOKEN__" access_token
  let html := pyReplace html "__PROJECT_ID__" project_id
  let html := pyReplace html "__MODEL_ID__" model_id
  let html := pyReplace html "__VERSION_ID__" (pyStrOr version_id "")
  html

set_option maxRecDepth 100000 in
/-- C7: the template holds exactly one occurrence of each of the four marker
substrings; for token "T", project "P", model "M" and no version the emitted
document contains none of the four markers any more, and carries the literal
"T" at the position where the access-token marker stood. -/
theorem c7_template_markers :
    countSubstr VIEWER_HTML_TEMPLATE "__ACCESS_TOKEN__" = 1 ∧
    countSubstr VIEWER_HTML_TEMPLATE "__PROJECT_ID__" = 1 ∧
    countSubstr VIEWER_HTML_TEMPLATE "__MODEL_ID__" = 1 ∧
    countSubstr VIEWER_HTML_TEMPLATE "__VERSION_ID__" = 1 ∧
    countSubstr (build_trimble_viewer_html "T" "P" "M" none) "__ACCESS_TOKEN__" = 0 ∧
    countSubstr (build_trimble_viewer_html "T" "P" "M" none) "__PROJECT_ID__" = 0 ∧
    countSubstr (build_trimble_viewer_html "T" "P" "M" none) "__MODEL_ID__" = 0 ∧
    countSubstr (build_trimble_viewer_html "T" "P" "M" none) "__VERSION_ID__" = 0 ∧
    List.head? ((build_trimble_viewer_html "T" "P" "M" none).data.drop
      (idxOfSub VIEWER_HTML_TEMPLATE "__ACCESS_TOKEN__")) = some 'T' := by
  refine ⟨by decide, by decide, by decide, by decide, by decide, by decide, by decide, by decide, by decide⟩
